import Mathlib

/-!
Shallow embedding of `src/server.py` (FHIR-Lite central server, v3.2).

The persisted JSON document is modelled at two levels:
* an untyped `Json` level for the store codec (`load_db`, lines 56-94), whose
  input is abstracted to the outcome of reading and parsing the backing file;
* a typed `Doc` level (patients / observations / logs) for the service
  endpoints, where the Python dict `db["patients"]` becomes an
  insertion-ordered association list and each endpoint is a function from the
  current file state to the new file state paired with the HTTP-level result.

Python `datetime.date` values are modelled by `YMD`; `datetime.fromisoformat`
followed by `.date()` is modelled by `parseDate` on the date-only `YYYY-MM-DD`
form that the validator's docstring and error message prescribe.  The audit
timestamp (`datetime.utcnow().isoformat()`) is threaded as an opaque string
parameter `ts`.  The generated observation id (`uuid.uuid4()`) is threaded as
an opaque string parameter `newId`.  The flag `lf` ("log save fails") makes
the `save_db` call inside `log_event` fail, to model persistence failures of
the audit write; on failure the file keeps its previous contents.
-/

/-! ### Untyped JSON level: the store codec -/

/-- Untyped JSON values as produced by `json.loads`. Numeric payloads are
inert for every property considered here, so numbers carry an `Int`. -/
inductive Json where
  | null : Json
  | bool : Bool → Json
  | num : Int → Json
  | str : String → Json
  | arr : List Json → Json
  | obj : List (String × Json) → Json
deriving Repr

/-- Outcome of reading the backing file and running `content.strip()` and
`json.loads(content)` on it (server.py lines 60-73): the file is absent, its
stripped content is empty, `json.loads` raises, or it parses to a value. -/
inductive RawInput where
  | absent : RawInput
  | empty : RawInput
  | parseFail : RawInput
  | parsed : Json → RawInput

/-- `get_empty_db` (server.py lines 47-49). -/
def get_empty_db : Json :=
  Json.obj [("patients", Json.obj []), ("observations", Json.arr []), ("logs", Json.arr [])]

/-- `if "patients" not in db: db["patients"] = {}` (line 80-81): the
membership test `"patients" in db` is `kvs.any (fun q => q.1 == "patients")`;
assigning a missing key appends it in insertion order. -/
def fillPatients (kvs : List (String × Json)) : List (String × Json) :=
  if kvs.any (fun q => q.1 == "patients") then kvs
  else kvs ++ [("patients", Json.obj [])]

/-- `if "observations" not in db: db["observations"] = []` (line 82-83). -/
def fillObservations (kvs : List (String × Json)) : List (String × Json) :=
  if kvs.any (fun q => q.1 == "observations") then kvs
  else kvs ++ [("observations", Json.arr [])]

/-- `if "logs" not in db: db["logs"] = []` (line 84-85). -/
def fillLogs (kvs : List (String × Json)) : List (String × Json) :=
  if kvs.any (fun q => q.1 == "logs") then kvs
  else kvs ++ [("logs", Json.arr [])]

/-- The three sequential key-filling statements of `load_db` (lines 80-85). -/
def fillMissing (kvs : List (String × Json)) : List (String × Json) :=
  fillLogs (fillObservations (fillPatients kvs))

/-- `load_db` (server.py lines 56-94).  Returns the document handed to the
caller together with what, if anything, was written back to the backing file:
* absent file: `initialize_db()` writes the empty document, which is then read
  back (lines 60-61, 51-54);
* empty content: writes and returns the empty document (lines 67-70);
* parse failure, or parsed value not a dict (`ValueError`, line 76-77): the
  `except` branch writes and returns the empty document (lines 89-94);
* parsed dict: missing top-level keys are filled in memory only (lines 80-87),
  nothing is written back. -/
def load_db : RawInput → Json × Option Json
  | RawInput.absent => (get_empty_db, some get_empty_db)
  | RawInput.empty => (get_empty_db, some get_empty_db)
  | RawInput.parseFail => (get_empty_db, some get_empty_db)
  | RawInput.parsed (Json.obj kvs) => (Json.obj (fillMissing kvs), none)
  | RawInput.parsed _ => (get_empty_db, some get_empty_db)

/-! ### Dates -/

/-- A calendar date, as `datetime.date`. -/
structure YMD where
  y : Nat
  m : Nat
  d : Nat
deriving Repr, DecidableEq

/-- Gregorian leap-year rule used by `datetime`. -/
def isLeap (y : Nat) : Bool :=
  (y % 4 == 0 && y % 100 != 0) || y % 400 == 0

def daysInMonth (y m : Nat) : Nat :=
  if m == 2 then (if isLeap y then 29 else 28)
  else if m == 4 || m == 6 || m == 9 || m == 11 then 30
  else 31

def digitVal (c : Char) : Nat := c.toNat - 48

/-- `datetime.fromisoformat(v).date()` on the date-only `YYYY-MM-DD` form
(the form the validator prescribes); `none` models the `ValueError` raised on
any string that is not a valid date in that form. -/
def parseDate (s : String) : Option YMD :=
  match s.data with
  | [y1, y2, y3, y4, h1, m1, m2, h2, d1, d2] =>
    if y1.isDigit && y2.isDigit && y3.isDigit && y4.isDigit &&
       m1.isDigit && m2.isDigit && d1.isDigit && d2.isDigit &&
       h1 == '-' && h2 == '-' then
      let y := 1000 * digitVal y1 + 100 * digitVal y2 + 10 * digitVal y3 + digitVal y4
      let m := 10 * digitVal m1 + digitVal m2
      let d := 10 * digitVal d1 + digitVal d2
      if 1 ≤ y && 1 ≤ m && m ≤ 12 && 1 ≤ d && d ≤ daysInMonth y m then
        some (YMD.mk y m d)
      else none
    else none
  | _ => none

/-- `date` comparison `a > b` (lexicographic on year, month, day). -/
def dateAfter (a b : YMD) : Bool :=
  a.y > b.y || (a.y == b.y && (a.m > b.m || (a.m == b.m && a.d > b.d)))

/-! ### Pydantic models and validators -/

/-- `class Patient(BaseModel)` (server.py lines 134-140). -/
structure Patient where
  id : String
  family_name : String
  given_name : String
  gender : String
  birthDate : String
  medical_summary : String
deriving Repr, DecidableEq

/-- `class PatientUpdate(BaseModel)` (lines 157-162): every field optional,
`none` meaning "unset".  There is no `id` field. -/
structure PatientUpdate where
  family_name : Option String := none
  given_name : Option String := none
  gender : Option String := none
  birthDate : Option String := none
  medical_summary : Option String := none
deriving Repr, DecidableEq

/-- `class Observation(BaseModel)` (lines 164-171).  The float `value` is an
inert payload for every property considered here. -/
structure Observation where
  patient_id : String
  category : String
  code : String
  display : String
  value : Int
  unit : String
  date : String
deriving Repr, DecidableEq

/-- A stored observation: `observation.dict()` plus the generated `"id"` key
(lines 289-290). -/
structure ObsRec where
  patient_id : String
  category : String
  code : String
  display : String
  value : Int
  unit : String
  date : String
  id : String
deriving Repr, DecidableEq

def Observation.toRec (o : Observation) (newId : String) : ObsRec :=
  ObsRec.mk o.patient_id o.category o.code o.display o.value o.unit o.date newId

/-- An audit log entry (lines 119-124). -/
structure LogEntry where
  timestamp : String
  action : String
  resource : String
  resource_id : String
deriving Repr, DecidableEq

/-- `validate_gender` (lines 142-146): `if v not in ["male","female","other"]`. -/
def validate_gender (v : String) : Except String String :=
  if v == "male" || v == "female" || v == "other" then Except.ok v
  else Except.error "Género inválido"

/-- The body of the `try` block of `validate_birthdate` (lines 150-152):
`datetime.fromisoformat` may raise `ValueError`; a parsed future date raises
`ValueError("Fecha de nacimiento futura no permitida")`. -/
def validate_birthdate_body (today : YMD) (v : String) : Except String String :=
  match parseDate v with
  | none => Except.error "invalid isoformat string"
  | some d =>
    if dateAfter d today then Except.error "Fecha de nacimiento futura no permitida"
    else Except.ok v

/-- `validate_birthdate` (lines 148-155): the `except ValueError` clause
catches every `ValueError` raised in the `try` block — including the
future-date one raised on line 152 — and re-raises with the format message. -/
def validate_birthdate (today : YMD) (v : String) : Except String String :=
  match validate_birthdate_body today v with
  | Except.ok x => Except.ok x
  | Except.error _ => Except.error "Formato de fecha inválido (debe ser YYYY-MM-DD)"

/-- Pydantic validation of a whole `Patient` record: the two field validators
in declaration order.  `family_name`, `given_name` and `medical_summary` are
plain `str` fields with no validator. -/
def validatePatient (today : YMD) (p : Patient) : Except String Patient :=
  match validate_gender p.gender with
  | Except.error e => Except.error e
  | Except.ok _ =>
    match validate_birthdate today p.birthDate with
    | Except.error e => Except.error e
    | Except.ok _ => Except.ok p

/-! ### Typed document level -/

/-- The typed persisted document.  `patients` models the Python dict: an
insertion-ordered association list with unique keys. -/
structure Doc where
  patients : List (String × Patient)
  observations : List ObsRec
  logs : List LogEntry
deriving Repr, DecidableEq

/-- `patient_id in db["patients"]`. -/
def Doc.hasPatient (doc : Doc) (pid : String) : Bool :=
  doc.patients.any (fun q => q.1 == pid)

/-- Python dict assignment `m[k] = v`: replaces in place when the key exists,
appends otherwise. -/
def dictSet (m : List (String × Patient)) (k : String) (v : Patient) :
    List (String × Patient) :=
  if m.any (fun q => q.1 == k) then
    m.map (fun q => if q.1 == k then (k, v) else q)
  else m ++ [(k, v)]

/-- Errors surfaced to the routing layer. -/
inductive HErr where
  /-- `raise HTTPException(status, detail)` inside a handler. -/
  | http : Nat → String → HErr
  /-- Pydantic rejection of the request body, before the handler runs. -/
  | validation : String → HErr
deriving Repr, DecidableEq

/-- Appending the log entry to the loaded document (lines 118-125). -/
def appendLog (ts action resource resource_id : String) (doc : Doc) : Doc :=
  Doc.mk doc.patients doc.observations
    (doc.logs ++ [LogEntry.mk ts action resource resource_id])

/-- The `save_db` call inside `log_event`, which may fail (`lf` true). -/
def trySaveLog (lf : Bool) (doc : Doc) : Except String Doc :=
  if lf then Except.error "Error al guardar en base de datos" else Except.ok doc

/-- `log_event` (lines 115-128): load, append, save, with the whole body in a
`try`/`except` that swallows every exception.  Returns the resulting file
state: when the save fails the file keeps its previous contents. -/
def log_event (lf : Bool) (ts action resource resource_id : String) (doc : Doc) : Doc :=
  match trySaveLog lf (appendLog ts action resource resource_id doc) with
  | Except.ok d => d
  | Except.error _ => doc

/-! ### Endpoints.  Each maps the current file state to the new file state
paired with the handler's result (`Except` for a raised `HTTPException` or a
pydantic rejection of the body). -/

/-- `create_patient` (lines 223-231); pydantic validates the body first. -/
def create_patient (lf : Bool) (ts : String) (today : YMD) (patient : Patient)
    (doc : Doc) : Doc × Except HErr String :=
  match validatePatient today patient with
  | Except.error e => (doc, Except.error (HErr.validation e))
  | Except.ok _ =>
    if doc.hasPatient patient.id then
      (doc, Except.error (HErr.http 400 "El paciente ya existe"))
    else
      let db := Doc.mk (dictSet doc.patients patient.id patient) doc.observations doc.logs
      (log_event lf ts "CREATE" "Patient" patient.id db, Except.ok "Paciente creado correctamente")

/-- `update_patient` (lines 233-241); stores `patient.dict()` verbatim under
the path key, whatever `patient.id` is. -/
def update_patient (lf : Bool) (ts : String) (today : YMD) (patient_id : String)
    (patient : Patient) (doc : Doc) : Doc × Except HErr String :=
  match validatePatient today patient with
  | Except.error e => (doc, Except.error (HErr.validation e))
  | Except.ok _ =>
    if doc.hasPatient patient_id then
      let db := Doc.mk (dictSet doc.patients patient_id patient) doc.observations doc.logs
      (log_event lf ts "PUT" "Patient" patient_id db, Except.ok "Paciente actualizado")
    else (doc, Except.error (HErr.http 404 "Paciente no encontrado"))

/-- The merge loop of `patch_patient` (lines 250-254): `exclude_unset` yields
only the provided fields, which are assigned over the stored record.  The
stored record has no other keys, and `PatientUpdate` has no `id` field. -/
def applyUpdate (p : Patient) (u : PatientUpdate) : Patient :=
  Patient.mk p.id
    (u.family_name.getD p.family_name)
    (u.given_name.getD p.given_name)
    (u.gender.getD p.gender)
    (u.birthDate.getD p.birthDate)
    (u.medical_summary.getD p.medical_summary)

/-- `patch_patient` (lines 243-265): 404 when the key is absent; otherwise
merge, validate the merged record as a whole `Patient`, and only on success
store, save and audit.  On validation failure nothing is saved. -/
def patch_patient (lf : Bool) (ts : String) (today : YMD) (patient_id : String)
    (updates : PatientUpdate) (doc : Doc) : Doc × Except HErr String :=
  match List.lookup patient_id doc.patients with
  | none => (doc, Except.error (HErr.http 404 "Paciente no encontrado"))
  | some patient_data =>
    let merged := applyUpdate patient_data updates
    match validatePatient today merged with
    | Except.error e =>
      (doc, Except.error (HErr.http 400 ("Error en validación clínica: " ++ e)))
    | Except.ok _ =>
      let db := Doc.mk (dictSet doc.patients patient_id merged) doc.observations doc.logs
      (log_event lf ts "PATCH" "Patient" patient_id db, Except.ok "Paciente actualizado parcialmente")

/-- `delete_patient` (lines 267-276): 404 when absent; otherwise delete the
key, filter out the observations with this `patient_id`, save once, audit. -/
def delete_patient (lf : Bool) (ts : String) (patient_id : String) (doc : Doc) :
    Doc × Except HErr String :=
  if doc.hasPatient patient_id then
    let db := Doc.mk (doc.patients.filter (fun q => q.1 != patient_id))
      (doc.observations.filter (fun o => o.patient_id != patient_id)) doc.logs
    (log_event lf ts "DELETE" "Patient" patient_id db, Except.ok "Paciente y observaciones eliminadas")
  else (doc, Except.error (HErr.http 404 "Paciente no encontrado"))

/-- The successful `save_db` calls made while serving `delete_patient`, in
order: line 274 writes both removals at once, then the save inside
`log_event` (line 126) writes the audit append (absent when it fails). -/
def delete_patient_saves (lf : Bool) (ts : String) (patient_id : String) (doc : Doc) :
    List Doc :=
  if doc.hasPatient patient_id then
    let db := Doc.mk (doc.patients.filter (fun q => q.1 != patient_id))
      (doc.observations.filter (fun o => o.patient_id != patient_id)) doc.logs
    db :: (if lf then [] else [appendLog ts "DELETE" "Patient" patient_id db])
  else []

/-- `create_observation` (lines 284-294): 404 when the referenced patient does
not exist; otherwise append the record with the generated id, save, audit,
and return the id alongside the message. -/
def create_observation (lf : Bool) (ts : String) (newId : String)
    (observation : Observation) (doc : Doc) : Doc × Except HErr (String × String) :=
  if doc.hasPatient observation.patient_id then
    let db := Doc.mk doc.patients (doc.observations ++ [observation.toRec newId]) doc.logs
    (log_event lf ts "CREATE" "Observation" newId db,
      Except.ok ("Observación registrada", newId))
  else (doc, Except.error (HErr.http 404 "Paciente no existe"))

/-- Python slice index normalisation for `xs[a:b]` on a list of length `n`. -/
def sliceIdx (n : Nat) (i : Int) : Nat :=
  if i < 0 then ((n : Int) + i).toNat else min i.toNat n

/-- Python list slicing `xs[a:b]` with possibly negative bounds. -/
def pySlice {α : Type} (xs : List α) (a b : Int) : List α :=
  let s := sliceIdx xs.length a
  let e := sliceIdx xs.length b
  (xs.drop s).take (e - s)

/-- The result object of `get_patients` (lines 206-211). -/
structure PageResult where
  total : Nat
  page : Int
  size : Int
  data : List Patient
deriving Repr, DecidableEq

/-- `get_patients` (lines 200-211): `start = (page-1)*size`, `end = start+size`,
`data = patients[start:end]` with Python slicing; read-only. -/
def get_patients (page size : Int) (doc : Doc) : PageResult :=
  let patients := doc.patients.map (fun q => q.2)
  let start := (page - 1) * size
  PageResult.mk patients.length page size (pySlice patients start (start + size))

/-! ### Concrete sample data used by witnesses and counterexamples -/

/-- A fixed value of `date.today()`. -/
def today0 : YMD := YMD.mk 2026 10 12

def pA : Patient := Patient.mk "A" "Fam" "Giv" "male" "2000-01-01" "s"

def docA : Doc := Doc.mk [("A", pA)] [] []

def pP : Patient := Patient.mk "P" "Perez" "Pablo" "male" "1990-05-05" ""

def pQ : Patient := Patient.mk "Q" "Quiroz" "Queta" "female" "1985-03-03" ""

def oP1 : ObsRec := ObsRec.mk "P" "vital-signs" "8867-4" "Heart rate" 72 "bpm" "2024-01-01" "o1"

def oQ1 : ObsRec := ObsRec.mk "Q" "vital-signs" "8867-4" "Heart rate" 70 "bpm" "2024-01-02" "o2"

def oP2 : ObsRec := ObsRec.mk "P" "vital-signs" "8480-6" "Systolic BP" 120 "mmHg" "2024-01-03" "o3"

/-- Patient `P` with two observations, patient `Q` with one (the cascade-delete
example of the spec). -/
def docPQ : Doc := Doc.mk [("P", pP), ("Q", pQ)] [oP1, oQ1, oP2] []

def pB : Patient := Patient.mk "B" "Beta" "Bob" "female" "1999-09-09" ""

/-- A document with two stored patients. -/
def doc2 : Doc := Doc.mk [("A", pA), ("B", pB)] [] []

/-- A patient whose `family_name` and `given_name` are the empty string. -/
def pEmptyNames : Patient := Patient.mk "E" "" "" "male" "2000-01-01" ""

/-! ### Helper lemmas -/

theorem strBeq_comm (a b : String) : (a == b) = (b == a) := by
  by_cases h : a = b
  · subst h; rfl
  · rw [beq_false_of_ne h, beq_false_of_ne (Ne.symm h)]

theorem lookup_append_of_key {β : Type} (m extra : List (String × β)) (k : String)
    (h : m.any (fun q => q.1 == k) = true) :
    List.lookup k (m ++ extra) = List.lookup k m := by
  induction m with
  | nil => simp at h
  | cons a t ih =>
    obtain ⟨a1, a2⟩ := a
    cases hak : (k == a1) with
    | true => simp only [List.cons_append, List.lookup_cons, hak]
    | false =>
      simp only [List.cons_append, List.lookup_cons, hak]
      apply ih
      simp only [List.any_cons] at h
      rw [strBeq_comm a1 k, hak] at h
      simpa using h

theorem lookup_append_missing {β : Type} (m : List (String × β)) (k : String) (v : β)
    (h : m.any (fun q => q.1 == k) = false) :
    List.lookup k (m ++ [(k, v)]) = some v := by
  induction m with
  | nil => simp [List.lookup]
  | cons a t ih =>
    obtain ⟨a1, a2⟩ := a
    simp only [List.any_cons, Bool.or_eq_false_iff] at h
    have hak : (k == a1) = false := by rw [strBeq_comm]; exact h.1
    simp only [List.cons_append, List.lookup_cons, hak]
    exact ih h.2

theorem any_of_lookup {β : Type} {m : List (String × β)} {k : String} {v : β}
    (h : List.lookup k m = some v) : m.any (fun q => q.1 == k) = true := by
  induction m with
  | nil => simp [List.lookup] at h
  | cons a t ih =>
    obtain ⟨a1, a2⟩ := a
    cases hak : (k == a1) with
    | true =>
      simp only [List.any_cons]
      rw [strBeq_comm a1 k, hak, Bool.true_or]
    | false =>
      simp only [List.lookup_cons, hak] at h
      simp only [List.any_cons, ih h, Bool.or_true]

theorem lookup_dictSet (m : List (String × Patient)) (k : String) (v : Patient)
    (h : m.any (fun q => q.1 == k) = true) :
    List.lookup k (dictSet m k v) = some v := by
  unfold dictSet
  rw [if_pos h]
  induction m with
  | nil => simp at h
  | cons a t ih =>
    obtain ⟨a1, a2⟩ := a
    by_cases hq : a1 = k
    · subst hq
      simp [List.lookup_cons]
    · have hak : (a1 == k) = false := beq_false_of_ne hq
      have hka : (k == a1) = false := beq_false_of_ne (Ne.symm hq)
      simp only [List.any_cons, hak, Bool.false_or] at h
      simp only [List.map_cons, hak, Bool.false_eq_true, if_false, List.lookup_cons, hka]
      exact ih h

theorem dictSet_keys (m : List (String × Patient)) (k : String) (v : Patient)
    (h : m.any (fun q => q.1 == k) = true) :
    (dictSet m k v).map Prod.fst = m.map Prod.fst := by
  unfold dictSet
  rw [if_pos h, List.map_map]
  apply List.map_congr_left
  intro q _
  by_cases hq : q.1 = k
  · simp [hq]
  · simp [hq, beq_false_of_ne hq]

theorem log_event_patients (lf : Bool) (ts a r i : String) (doc : Doc) :
    (log_event lf ts a r i doc).patients = doc.patients := by
  cases lf <;> rfl

theorem log_event_observations (lf : Bool) (ts a r i : String) (doc : Doc) :
    (log_event lf ts a r i doc).observations = doc.observations := by
  cases lf <;> rfl

theorem eq_false_not_true {b : Bool} (h : b = false) : ¬(b = true) := by
  rw [h]
  exact Bool.false_ne_true

theorem anyKey_single {β : Type} (k k' : String) (v : β) :
    [(k', v)].any (fun q => q.1 == k) = (k' == k) := by
  simp only [List.any_cons, List.any_nil, Bool.or_false]

theorem anyKey_append {β : Type} (x e : List (String × β)) (k : String) :
    (x ++ e).any (fun q => q.1 == k) =
      ((x.any fun q => q.1 == k) || (e.any fun q => q.1 == k)) := by
  simp only [List.any_append]

theorem fillPatients_extends (kvs : List (String × Json)) :
    ∃ e, fillPatients kvs = kvs ++ e := by
  unfold fillPatients
  cases hF : kvs.any (fun q => q.1 == "patients") with
  | true => exact ⟨[], by rw [if_pos rfl, List.append_nil]⟩
  | false => exact ⟨[("patients", Json.obj [])], by rw [if_neg Bool.false_ne_true]⟩

theorem fillObservations_extends (kvs : List (String × Json)) :
    ∃ e, fillObservations kvs = kvs ++ e := by
  unfold fillObservations
  cases hF : kvs.any (fun q => q.1 == "observations") with
  | true => exact ⟨[], by rw [if_pos rfl, List.append_nil]⟩
  | false => exact ⟨[("observations", Json.arr [])], by rw [if_neg Bool.false_ne_true]⟩

theorem fillLogs_extends (kvs : List (String × Json)) :
    ∃ e, fillLogs kvs = kvs ++ e := by
  unfold fillLogs
  cases hF : kvs.any (fun q => q.1 == "logs") with
  | true => exact ⟨[], by rw [if_pos rfl, List.append_nil]⟩
  | false => exact ⟨[("logs", Json.arr [])], by rw [if_neg Bool.false_ne_true]⟩

theorem fillMissing_extends (kvs : List (String × Json)) :
    ∃ e, fillMissing kvs = kvs ++ e := by
  obtain ⟨e1, h1⟩ := fillPatients_extends kvs
  obtain ⟨e2, h2⟩ := fillObservations_extends (fillPatients kvs)
  obtain ⟨e3, h3⟩ := fillLogs_extends (fillObservations (fillPatients kvs))
  refine ⟨e1 ++ e2 ++ e3, ?_⟩
  unfold fillMissing
  rw [h3, h2, h1]
  simp [List.append_assoc]

theorem fillMissing_take (kvs : List (String × Json)) :
    (fillMissing kvs).take kvs.length = kvs := by
  obtain ⟨e, he⟩ := fillMissing_extends kvs
  rw [he]
  simp

theorem fillPatients_hasKey (kvs : List (String × Json)) :
    (fillPatients kvs).any (fun q => q.1 == "patients") = true := by
  unfold fillPatients
  cases hF : kvs.any (fun q => q.1 == "patients") with
  | true => rw [if_pos rfl]; exact hF
  | false =>
    rw [if_neg Bool.false_ne_true, anyKey_append, anyKey_single, hF]
    decide

theorem fillObservations_hasKey (kvs : List (String × Json)) :
    (fillObservations kvs).any (fun q => q.1 == "observations") = true := by
  unfold fillObservations
  cases hF : kvs.any (fun q => q.1 == "observations") with
  | true => rw [if_pos rfl]; exact hF
  | false =>
    rw [if_neg Bool.false_ne_true, anyKey_append, anyKey_single, hF]
    decide

theorem fillLogs_hasKey (kvs : List (String × Json)) :
    (fillLogs kvs).any (fun q => q.1 == "logs") = true := by
  unfold fillLogs
  cases hF : kvs.any (fun q => q.1 == "logs") with
  | true => rw [if_pos rfl]; exact hF
  | false =>
    rw [if_neg Bool.false_ne_true, anyKey_append, anyKey_single, hF]
    decide

theorem fillPatients_hasKey_observations (kvs : List (String × Json)) :
    (fillPatients kvs).any (fun q => q.1 == "observations") =
      kvs.any (fun q => q.1 == "observations") := by
  unfold fillPatients
  cases hF : kvs.any (fun q => q.1 == "patients") with
  | true => rw [if_pos rfl]
  | false =>
    rw [if_neg Bool.false_ne_true, anyKey_append, anyKey_single]
    have hd : (("patients" : String) == "observations") = false := by decide
    rw [hd, Bool.or_false]

theorem fillPatients_hasKey_logs (kvs : List (String × Json)) :
    (fillPatients kvs).any (fun q => q.1 == "logs") =
      kvs.any (fun q => q.1 == "logs") := by
  unfold fillPatients
  cases hF : kvs.any (fun q => q.1 == "patients") with
  | true => rw [if_pos rfl]
  | false =>
    rw [if_neg Bool.false_ne_true, anyKey_append, anyKey_single]
    have hd : (("patients" : String) == "logs") = false := by decide
    rw [hd, Bool.or_false]

theorem fillObservations_hasKey_logs (kvs : List (String × Json)) :
    (fillObservations kvs).any (fun q => q.1 == "logs") =
      kvs.any (fun q => q.1 == "logs") := by
  unfold fillObservations
  cases hF : kvs.any (fun q => q.1 == "observations") with
  | true => rw [if_pos rfl]
  | false =>
    rw [if_neg Bool.false_ne_true, anyKey_append, anyKey_single]
    have hd : (("observations" : String) == "logs") = false := by decide
    rw [hd, Bool.or_false]

theorem fillMissing_hasKeys (kvs : List (String × Json)) :
    (fillMissing kvs).any (fun q => q.1 == "patients") = true
    ∧ (fillMissing kvs).any (fun q => q.1 == "observations") = true
    ∧ (fillMissing kvs).any (fun q => q.1 == "logs") = true := by
  obtain ⟨e2, h2⟩ := fillObservations_extends (fillPatients kvs)
  obtain ⟨e3, h3⟩ := fillLogs_extends (fillObservations (fillPatients kvs))
  refine ⟨?_, ?_, fillLogs_hasKey _⟩
  · unfold fillMissing
    rw [h3, anyKey_append, h2, anyKey_append, fillPatients_hasKey, Bool.true_or, Bool.true_or]
  · unfold fillMissing
    rw [h3, anyKey_append, fillObservations_hasKey, Bool.true_or]

theorem fillMissing_lookup_present (kvs : List (String × Json)) (k : String)
    (h : kvs.any (fun q => q.1 == k) = true) :
    List.lookup k (fillMissing kvs) = List.lookup k kvs := by
  obtain ⟨e, he⟩ := fillMissing_extends kvs
  rw [he]
  exact lookup_append_of_key kvs e k h

theorem fillMissing_lookup_patients (kvs : List (String × Json))
    (h : kvs.any (fun q => q.1 == "patients") = false) :
    List.lookup "patients" (fillMissing kvs) = some (Json.obj []) := by
  have h1 : fillPatients kvs = kvs ++ [("patients", Json.obj [])] := by
    unfold fillPatients
    rw [if_neg (eq_false_not_true h)]
  obtain ⟨e2, h2⟩ := fillObservations_extends (fillPatients kvs)
  obtain ⟨e3, h3⟩ := fillLogs_extends (fillObservations (fillPatients kvs))
  unfold fillMissing
  rw [h3]
  rw [lookup_append_of_key _ _ _
    (by rw [h2, anyKey_append, fillPatients_hasKey, Bool.true_or])]
  rw [h2]
  rw [lookup_append_of_key _ _ _ (fillPatients_hasKey kvs)]
  rw [h1]
  exact lookup_append_missing kvs "patients" _ h

theorem fillMissing_lookup_observations (kvs : List (String × Json))
    (h : kvs.any (fun q => q.1 == "observations") = false) :
    List.lookup "observations" (fillMissing kvs) = some (Json.arr []) := by
  have hp : (fillPatients kvs).any (fun q => q.1 == "observations") = false := by
    rw [fillPatients_hasKey_observations]
    exact h
  have h1 : fillObservations (fillPatients kvs) =
      fillPatients kvs ++ [("observations", Json.arr [])] := by
    unfold fillObservations
    rw [if_neg (eq_false_not_true hp)]
  obtain ⟨e3, h3⟩ := fillLogs_extends (fillObservations (fillPatients kvs))
  unfold fillMissing
  rw [h3, lookup_append_of_key _ _ _ (fillObservations_hasKey _), h1]
  exact lookup_append_missing _ "observations" _ hp

theorem fillMissing_lookup_logs (kvs : List (String × Json))
    (h : kvs.any (fun q => q.1 == "logs") = false) :
    List.lookup "logs" (fillMissing kvs) = some (Json.arr []) := by
  have ho : (fillObservations (fillPatients kvs)).any (fun q => q.1 == "logs") = false := by
    rw [fillObservations_hasKey_logs, fillPatients_hasKey_logs]
    exact h
  have h1 : fillLogs (fillObservations (fillPatients kvs)) =
      fillObservations (fillPatients kvs) ++ [("logs", Json.arr [])] := by
    unfold fillLogs
    rw [if_neg (eq_false_not_true ho)]
  unfold fillMissing
  rw [h1]
  exact lookup_append_missing _ "logs" _ ho

/-! ### Claim theorems -/

/-- C10: `load_db`'s recovery paths (absent file, empty content, unparsable
content, parsed value not a mapping) write the canonical empty document back
to the backing file as a side effect, overwriting it, while the
missing-top-level-keys path of a parsed mapping repairs in memory only and
writes nothing back. -/
theorem C10_decode_recovery_write_back (r : RawInput) :
    (load_db r).2 = (match r with
      | RawInput.parsed (Json.obj _) => none
      | _ => some get_empty_db) := by
  cases r with
  | absent => rfl
  | empty => rfl
  | parseFail => rfl
  | parsed j => cases j <;> rfl

/-- C4 (code bug evidence): both an unparsable `birthDate` and a future
`birthDate` are rejected, but with the SAME message — the future-date
`ValueError` raised inside the `try` block is caught by the `except
ValueError` clause of `validate_birthdate` itself and replaced by the format
message, so the two error messages are not distinct as the spec requires.
The third conjunct exhibits the dead distinct message that the `try` body
produces before it is swallowed. -/
theorem C4_birthdate_error_messages :
    validate_birthdate today0 "3000-01-01" =
      Except.error "Formato de fecha inválido (debe ser YYYY-MM-DD)"
    ∧ validate_birthdate today0 "not-a-date" =
      Except.error "Formato de fecha inválido (debe ser YYYY-MM-DD)"
    ∧ validate_birthdate_body today0 "3000-01-01" =
      Except.error "Fecha de nacimiento futura no permitida"
    ∧ parseDate "not-a-date" = none :=
  ⟨rfl, rfl, rfl, rfl⟩

/-- C3 (counterexample): a parsed mapping whose top-level `patients` key holds
a wrong-typed value (the number 5) is NOT replaced by the canonical empty
document — `load_db` keeps the wrong-typed value and only appends the two
missing keys. -/
theorem C3_counterexample :
    (load_db (RawInput.parsed (Json.obj [("patients", Json.num 5)]))).1 ≠ get_empty_db
    ∧ (load_db (RawInput.parsed (Json.obj [("patients", Json.num 5)]))).1 =
      Json.obj [("patients", Json.num 5), ("observations", Json.arr []), ("logs", Json.arr [])] :=
  ⟨by simp [load_db, fillMissing, fillPatients, fillObservations, fillLogs, get_empty_db], rfl⟩

/-- C3 (amended): `load_db` returns the canonical empty document on empty,
absent, unparsable, or non-mapping input; on a parsed mapping — whatever the
types of the values, which are not checked — it returns the mapping with the
canonical empty value filled in for exactly the missing top-level key(s): the
original bindings are preserved in place, all three keys are present
afterwards, each missing key gets its canonical empty value, and the value of
every present key is unchanged. -/
theorem C3_decode_contract :
    (∀ r : RawInput,
      (load_db r).1 = (match r with
        | RawInput.parsed (Json.obj kvs) => Json.obj (fillMissing kvs)
        | _ => get_empty_db))
    ∧ (∀ kvs : List (String × Json),
        (fillMissing kvs).take kvs.length = kvs
        ∧ (fillMissing kvs).any (fun q => q.1 == "patients") = true
        ∧ (fillMissing kvs).any (fun q => q.1 == "observations") = true
        ∧ (fillMissing kvs).any (fun q => q.1 == "logs") = true)
    ∧ (∀ kvs : List (String × Json), kvs.any (fun q => q.1 == "patients") = false →
        List.lookup "patients" (fillMissing kvs) = some (Json.obj []))
    ∧ (∀ kvs : List (String × Json), kvs.any (fun q => q.1 == "observations") = false →
        List.lookup "observations" (fillMissing kvs) = some (Json.arr []))
    ∧ (∀ kvs : List (String × Json), kvs.any (fun q => q.1 == "logs") = false →
        List.lookup "logs" (fillMissing kvs) = some (Json.arr []))
    ∧ (∀ (kvs : List (String × Json)) (k : String), kvs.any (fun q => q.1 == k) = true →
        List.lookup k (fillMissing kvs) = List.lookup k kvs) := by
  refine ⟨?_, ?_, fillMissing_lookup_patients, fillMissing_lookup_observations,
    fillMissing_lookup_logs, fillMissing_lookup_present⟩
  · intro r
    cases r with
    | absent => rfl
    | empty => rfl
    | parseFail => rfl
    | parsed j => cases j <;> rfl
  · intro kvs
    exact ⟨fillMissing_take kvs, (fillMissing_hasKeys kvs).1,
      (fillMissing_hasKeys kvs).2.1, (fillMissing_hasKeys kvs).2.2⟩

/-- Witness for C3 (amended) at the concrete inputs `{"patients": 5}` and `{}`. -/
theorem C3_decode_contract_witness :
    (([] : List (String × Json)).any (fun q => q.1 == "patients") = false
      ∧ List.lookup "patients" (fillMissing []) = some (Json.obj []))
    ∧ ([("patients", Json.num 5)].any (fun q => q.1 == "observations") = false
      ∧ List.lookup "observations" (fillMissing [("patients", Json.num 5)]) = some (Json.arr []))
    ∧ ([("patients", Json.num 5)].any (fun q => q.1 == "logs") = false
      ∧ List.lookup "logs" (fillMissing [("patients", Json.num 5)]) = some (Json.arr []))
    ∧ ([("patients", Json.num 5)].any (fun q => q.1 == "patients") = true
      ∧ List.lookup "patients" (fillMissing [("patients", Json.num 5)]) =
          List.lookup "patients" [("patients", Json.num 5)]) :=
  ⟨⟨rfl, C3_decode_contract.2.2.1 [] rfl⟩,
   ⟨rfl, C3_decode_contract.2.2.2.1 [("patients", Json.num 5)] rfl⟩,
   ⟨rfl, C3_decode_contract.2.2.2.2.1 [("patients", Json.num 5)] rfl⟩,
   ⟨rfl, C3_decode_contract.2.2.2.2.2 [("patients", Json.num 5)] "patients" rfl⟩⟩

/-- C1: partial-update atomicity.  For every stored patient and every patch
whose merge with the stored record fails `Patient` validation, `patch_patient`
raises HTTP 400 with the clinical-validation message (the operation's
ValidationError) and the persisted document is returned unchanged — the
merged-but-invalid record is never saved, because validation happens before
`save_db` is called. -/
theorem C1_patch_validation_atomicity (lf : Bool) (ts : String) (today : YMD)
    (pid : String) (u : PatientUpdate) (doc : Doc) (pd : Patient) (e : String)
    (hlook : List.lookup pid doc.patients = some pd)
    (hval : validatePatient today (applyUpdate pd u) = Except.error e) :
    patch_patient lf ts today pid u doc =
      (doc, Except.error (HErr.http 400 ("Error en validación clínica: " ++ e))) := by
  unfold patch_patient
  rw [hlook]
  simp only [hval]

/-- Witness for C1: a stored patient with gender `male`, patched with the
invalid gender value `invalid`: the file is unchanged and HTTP 400 results. -/
theorem C1_patch_validation_atomicity_witness :
    patch_patient false "t" today0 "A"
        (PatientUpdate.mk none none (some "invalid") none none) docA =
      (docA, Except.error (HErr.http 400 ("Error en validación clínica: " ++ "Género inválido"))) :=
  C1_patch_validation_atomicity false "t" today0 "A"
    (PatientUpdate.mk none none (some "invalid") none none) docA pA "Género inválido" rfl rfl

/-- C2: cascade delete.  For every id present in `patients`, `delete_patient`
removes that patient, removes exactly the observations whose `patient_id`
equals the id (all other patients and observations are kept, characterised by
the two filters), persists once for both removals (the save trace is: one
save holding both removals with the logs untouched, then the audit save), and
appends exactly one audit entry `(DELETE, Patient, id)`.  For every absent
id it raises HTTP 404 and the file is unchanged, with no save at all. -/
theorem C2_cascade_delete (ts pid : String) (doc : Doc) :
    (doc.hasPatient pid = true →
      delete_patient false ts pid doc =
        (Doc.mk (doc.patients.filter (fun q => q.1 != pid))
          (doc.observations.filter (fun o => o.patient_id != pid))
          (doc.logs ++ [LogEntry.mk ts "DELETE" "Patient" pid]),
         Except.ok "Paciente y observaciones eliminadas")
      ∧ delete_patient_saves false ts pid doc =
          [Doc.mk (doc.patients.filter (fun q => q.1 != pid))
            (doc.observations.filter (fun o => o.patient_id != pid)) doc.logs,
           Doc.mk (doc.patients.filter (fun q => q.1 != pid))
            (doc.observations.filter (fun o => o.patient_id != pid))
            (doc.logs ++ [LogEntry.mk ts "DELETE" "Patient" pid])])
    ∧ (doc.hasPatient pid = false →
      delete_patient false ts pid doc = (doc, Except.error (HErr.http 404 "Paciente no encontrado"))
      ∧ delete_patient_saves false ts pid doc = []) := by
  constructor
  · intro h
    constructor
    · unfold delete_patient
      rw [if_pos h]
      rfl
    · unfold delete_patient_saves
      rw [if_pos h]
      rfl
  · intro h
    constructor
    · unfold delete_patient
      rw [if_neg (eq_false_not_true h)]
    · unfold delete_patient_saves
      rw [if_neg (eq_false_not_true h)]

/-- Witness for C2 at the spec's example: patient `P` with two observations
and patient `Q` with one; deleting `P` keeps exactly `Q` and `Q`'s
observation and appends one DELETE entry; deleting the absent `Z` is a 404
with no change and no save. -/
theorem C2_cascade_delete_witness :
    delete_patient false "t" "P" docPQ =
      (Doc.mk (docPQ.patients.filter (fun q => q.1 != "P"))
        (docPQ.observations.filter (fun o => o.patient_id != "P"))
        (docPQ.logs ++ [LogEntry.mk "t" "DELETE" "Patient" "P"]),
       Except.ok "Paciente y observaciones eliminadas")
    ∧ docPQ.patients.filter (fun q => q.1 != "P") = [("Q", pQ)]
    ∧ docPQ.observations.filter (fun o => o.patient_id != "P") = [oQ1]
    ∧ delete_patient false "t" "Z" docPQ =
        (docPQ, Except.error (HErr.http 404 "Paciente no encontrado")) :=
  ⟨((C2_cascade_delete "t" "P" docPQ).1 rfl).1, rfl, rfl,
    ((C2_cascade_delete "t" "Z" docPQ).2 rfl).1⟩

/-- C7: observation referential integrity.  When `observation.patient_id`
does not reference a stored patient, `create_observation` raises HTTP 404 and
the persisted observations sequence (in particular its length) is unchanged;
when it does, the operation appends exactly one record carrying the freshly
generated id and returns that id to the caller. -/
theorem C7_observation_referential_integrity (lf : Bool) (ts newId : String)
    (o : Observation) (doc : Doc) :
    (doc.hasPatient o.patient_id = false →
      create_observation lf ts newId o doc = (doc, Except.error (HErr.http 404 "Paciente no existe"))
      ∧ (create_observation lf ts newId o doc).1.observations.length = doc.observations.length)
    ∧ (doc.hasPatient o.patient_id = true →
      (create_observation lf ts newId o doc).1.observations = doc.observations ++ [o.toRec newId]
      ∧ (create_observation lf ts newId o doc).2 = Except.ok ("Observación registrada", newId)
      ∧ (o.toRec newId).id = newId) := by
  constructor
  · intro h
    have he : create_observation lf ts newId o doc =
        (doc, Except.error (HErr.http 404 "Paciente no existe")) := by
      unfold create_observation
      rw [if_neg (eq_false_not_true h)]
    exact ⟨he, by rw [he]⟩
  · intro h
    refine ⟨?_, ?_, rfl⟩
    · unfold create_observation
      rw [if_pos h]
      exact log_event_observations lf ts "CREATE" "Observation" newId _
    · unfold create_observation
      rw [if_pos h]

/-- Witness for C7: an observation for the missing patient `Z` on `docPQ` is
a 404 with the observations sequence unchanged; the same observation for the
stored patient `P` is appended with the generated id `oNew` and that id is
returned. -/
theorem C7_observation_referential_integrity_witness :
    create_observation false "t" "oNew"
        (Observation.mk "Z" "vital-signs" "8867-4" "Heart rate" 80 "bpm" "2024-02-01") docPQ =
      (docPQ, Except.error (HErr.http 404 "Paciente no existe"))
    ∧ (create_observation false "t" "oNew"
        (Observation.mk "P" "vital-signs" "8867-4" "Heart rate" 80 "bpm" "2024-02-01") docPQ).1.observations =
      docPQ.observations ++
        [(Observation.mk "P" "vital-signs" "8867-4" "Heart rate" 80 "bpm" "2024-02-01").toRec "oNew"]
    ∧ (create_observation false "t" "oNew"
        (Observation.mk "P" "vital-signs" "8867-4" "Heart rate" 80 "bpm" "2024-02-01") docPQ).2 =
      Except.ok ("Observación registrada", "oNew") :=
  ⟨((C7_observation_referential_integrity false "t" "oNew"
      (Observation.mk "Z" "vital-signs" "8867-4" "Heart rate" 80 "bpm" "2024-02-01") docPQ).1 rfl).1,
   ((C7_observation_referential_integrity false "t" "oNew"
      (Observation.mk "P" "vital-signs" "8867-4" "Heart rate" 80 "bpm" "2024-02-01") docPQ).2 rfl).1,
   ((C7_observation_referential_integrity false "t" "oNew"
      (Observation.mk "P" "vital-signs" "8867-4" "Heart rate" 80 "bpm" "2024-02-01") docPQ).2 rfl).2.1⟩

/-- C5 (counterexample): full replacement does NOT keep the stored record's
`id` field equal to the path key — `update_patient` on path key `A` with a
body whose `id` is `B` stores that record verbatim, so the record under map
key `A` afterwards has `id = "B"`. -/
theorem C5_counterexample :
    List.lookup "A" (update_patient false "t" today0 "A"
        (Patient.mk "B" "Fam" "Giv" "male" "2000-01-01" "s") docA).1.patients =
      some (Patient.mk "B" "Fam" "Giv" "male" "2000-01-01" "s")
    ∧ (Patient.mk "B" "Fam" "Giv" "male" "2000-01-01" "s").id ≠ "A" :=
  ⟨rfl, by decide⟩

/-- C5 (amended): partial update never touches the stored `id` field
(`PatientUpdate` has no `id` field, so the merged record keeps the previous
`id` and stays under the same map key), while full replacement stores the
submitted record verbatim under the path key: the stored record's `id` equals
the *submitted* patient's `id` (which need not equal the path key), and the
set of map keys is unchanged by either operation. -/
theorem C5_id_immutability (lf : Bool) (ts : String) (today : YMD) (pid : String)
    (u : PatientUpdate) (p pd : Patient) (doc : Doc) :
    (List.lookup pid doc.patients = some pd →
      validatePatient today (applyUpdate pd u) = Except.ok (applyUpdate pd u) →
      List.lookup pid (patch_patient lf ts today pid u doc).1.patients =
        some (applyUpdate pd u)
      ∧ (applyUpdate pd u).id = pd.id
      ∧ (patch_patient lf ts today pid u doc).1.patients.map Prod.fst =
          doc.patients.map Prod.fst)
    ∧ (doc.hasPatient pid = true →
      validatePatient today p = Except.ok p →
      List.lookup pid (update_patient lf ts today pid p doc).1.patients = some p
      ∧ (update_patient lf ts today pid p doc).1.patients.map Prod.fst =
          doc.patients.map Prod.fst) := by
  constructor
  · intro hlook hv
    have hp : (patch_patient lf ts today pid u doc).1 =
        log_event lf ts "PATCH" "Patient" pid
          (Doc.mk (dictSet doc.patients pid (applyUpdate pd u)) doc.observations doc.logs) := by
      unfold patch_patient
      rw [hlook]
      simp only [hv]
    refine ⟨?_, rfl, ?_⟩
    · rw [hp, log_event_patients]
      exact lookup_dictSet doc.patients pid (applyUpdate pd u) (any_of_lookup hlook)
    · rw [hp, log_event_patients]
      exact dictSet_keys doc.patients pid (applyUpdate pd u) (any_of_lookup hlook)
  · intro hhas hv
    have hp : (update_patient lf ts today pid p doc).1 =
        log_event lf ts "PUT" "Patient" pid
          (Doc.mk (dictSet doc.patients pid p) doc.observations doc.logs) := by
      unfold update_patient
      simp only [hv]
      rw [if_pos hhas]
    constructor
    · rw [hp, log_event_patients]
      exact lookup_dictSet doc.patients pid p hhas
    · rw [hp, log_event_patients]
      exact dictSet_keys doc.patients pid p hhas

/-- Witness for C5 (amended): patching `A`'s family name keeps `id = "A"` and
the key set; replacing `A` with a body whose id is `B` stores that body. -/
theorem C5_id_immutability_witness :
    (List.lookup "A" (patch_patient false "t" today0 "A"
        (PatientUpdate.mk (some "New") none none none none) docA).1.patients =
      some (applyUpdate pA (PatientUpdate.mk (some "New") none none none none))
      ∧ (applyUpdate pA (PatientUpdate.mk (some "New") none none none none)).id = pA.id
      ∧ (patch_patient false "t" today0 "A"
          (PatientUpdate.mk (some "New") none none none none) docA).1.patients.map Prod.fst =
        docA.patients.map Prod.fst)
    ∧ (List.lookup "A" (update_patient false "t" today0 "A"
        (Patient.mk "B" "Fam" "Giv" "male" "2000-01-01" "s") docA).1.patients =
      some (Patient.mk "B" "Fam" "Giv" "male" "2000-01-01" "s")
      ∧ (update_patient false "t" today0 "A"
          (Patient.mk "B" "Fam" "Giv" "male" "2000-01-01" "s") docA).1.patients.map Prod.fst =
        docA.patients.map Prod.fst) :=
  ⟨(C5_id_immutability false "t" today0 "A"
      (PatientUpdate.mk (some "New") none none none none)
      (Patient.mk "B" "Fam" "Giv" "male" "2000-01-01" "s") pA docA).1 rfl rfl,
   (C5_id_immutability false "t" today0 "A"
      (PatientUpdate.mk (some "New") none none none none)
      (Patient.mk "B" "Fam" "Giv" "male" "2000-01-01" "s") pA docA).2 rfl rfl⟩

/-- C6 (counterexample): `get_patients` with `size = -1 < 1` on a two-patient
document is accepted and returns a NON-empty data slice (Python slicing
`[0:-1]` keeps the first patient), refuting "values below 1 yield an empty
slice"; `total` still reports the number of patients. -/
theorem C6_counterexample :
    ((-1 : Int) < 1)
    ∧ (get_patients 1 (-1) doc2).data = [pA]
    ∧ (get_patients 1 (-1) doc2).total = 2 :=
  ⟨by decide, rfl, rfl⟩

/-- C6 (amended): `get_patients` accepts `page < 1` or `size < 1` without any
error: it returns `total` equal to the number of stored patients and the data
slice given by Python slicing arithmetic
`patients[(page-1)*size : (page-1)*size+size]`, which may be non-empty for
negative inputs; in particular `page = 0` or `size = 0` does give an empty
slice. -/
theorem C6_pagination_below_one (page size : Int) (doc : Doc)
    (h : page < 1 ∨ size < 1) :
    get_patients page size doc =
      PageResult.mk doc.patients.length page size
        (pySlice (doc.patients.map (fun q => q.2)) ((page - 1) * size) ((page - 1) * size + size))
    ∧ (page = 0 ∨ size = 0 → (get_patients page size doc).data = []) := by
  constructor
  · simp [get_patients]
  · intro h0
    rcases h0 with h0 | h0
    · subst h0
      have e1 : ((0 : Int) - 1) * size + size = 0 := by ring
      simp [get_patients, e1, pySlice, sliceIdx]
    · subst h0
      have e1 : (page - 1) * 0 = 0 := by ring
      simp [get_patients, e1, pySlice, sliceIdx]

/-- Witness for C6 (amended) at `page = 0`, `size = 5` on two patients. -/
theorem C6_pagination_below_one_witness :
    (get_patients 0 5 doc2 =
      PageResult.mk doc2.patients.length 0 5
        (pySlice (doc2.patients.map (fun q => q.2)) ((0 - 1) * 5) ((0 - 1) * 5 + 5)))
    ∧ (get_patients 0 5 doc2).data = [] :=
  ⟨(C6_pagination_below_one 0 5 doc2 (Or.inl (by decide))).1,
   (C6_pagination_below_one 0 5 doc2 (Or.inl (by decide))).2 (Or.inl rfl)⟩

/-- C8 (counterexample): the service's validation accepts a patient whose
`family_name` and `given_name` are the empty string — `Patient` has no
validator on the name fields, so `create_patient` succeeds. -/
theorem C8_counterexample :
    pEmptyNames.family_name = ""
    ∧ pEmptyNames.given_name = ""
    ∧ validatePatient today0 pEmptyNames = Except.ok pEmptyNames
    ∧ (create_patient false "t" today0 pEmptyNames (Doc.mk [] [] [])).2 =
        Except.ok "Paciente creado correctamente" :=
  ⟨rfl, rfl, rfl, rfl⟩

/-- C8 (amended): `family_name` and `given_name` are required fields but their
content is never inspected by validation (the empty string is accepted):
replacing both names by arbitrary strings leaves the validation outcome
unchanged — only `gender` and `birthDate` are validated. -/
theorem C8_names_not_validated (today : YMD) (p : Patient) (s1 s2 : String) :
    validatePatient today (Patient.mk p.id s1 s2 p.gender p.birthDate p.medical_summary) =
      (validatePatient today p).map
        (fun _ => Patient.mk p.id s1 s2 p.gender p.birthDate p.medical_summary) := by
  unfold validatePatient
  cases hg : validate_gender p.gender with
  | error e => simp [hg, Except.map]
  | ok x =>
    cases hb : validate_birthdate today p.birthDate with
    | error e => simp [hg, hb, Except.map]
    | ok y => simp [hg, hb, Except.map]

/-- C9: the audit log is best-effort.  A persistence failure inside
`log_event` is caught there and never propagated: `log_event` is a total
function on documents (on failure the file keeps its previous contents, on
success the entry is appended), and the result returned by every triggering
business operation is identical whether or not the audit write fails. -/
theorem C9_audit_best_effort (ts a r i : String) (doc : Doc) (today : YMD)
    (p : Patient) (u : PatientUpdate) (pid newId : String) (o : Observation) :
    log_event true ts a r i doc = doc
    ∧ log_event false ts a r i doc = appendLog ts a r i doc
    ∧ (create_patient true ts today p doc).2 = (create_patient false ts today p doc).2
    ∧ (update_patient true ts today pid p doc).2 = (update_patient false ts today pid p doc).2
    ∧ (patch_patient true ts today pid u doc).2 = (patch_patient false ts today pid u doc).2
    ∧ (delete_patient true ts pid doc).2 = (delete_patient false ts pid doc).2
    ∧ (create_observation true ts newId o doc).2 = (create_observation false ts newId o doc).2 := by
  refine ⟨rfl, rfl, ?_, ?_, ?_, ?_, ?_⟩
  · unfold create_patient
    cases hv : validatePatient today p with
    | error e => rfl
    | ok x => cases hc : doc.hasPatient p.id <;> rfl
  · unfold update_patient
    cases hv : validatePatient today p with
    | error e => rfl
    | ok x => cases hc : doc.hasPatient pid <;> rfl
  · unfold patch_patient
    cases hl : List.lookup pid doc.patients with
    | none => rfl
    | some pd =>
      cases hv : validatePatient today (applyUpdate pd u) with
      | error e => simp [hv]
      | ok x => simp [hv]
  · unfold delete_patient
    cases hc : doc.hasPatient pid <;> rfl
  · unfold create_observation
    cases hc : doc.hasPatient o.patient_id <;> rfl
